import Mathlib

/-!
Shallow embedding of `src/css_parser.rs` (CSS value parsers for colors,
lengths, border radii, box shadows and gradients).

Modelling conventions:
* Rust `&str` values are modelled as `List Char` (`Str` below); byte indices
  of ASCII input coincide with character indices.
* Rust `f32` values are modelled as `ℚ`; arithmetic on them is exact.  The
  `f32` constant `std::f32::consts::PI` is modelled by its exact rational
  value `PI32`.  Division by zero yields `0` in `ℚ` (instead of an `f32`
  infinity); in the embedded code every quotient that can have a zero
  denominator is never read afterwards, so results agree.
* `f32::from_str` is modelled on its plain decimal fragment
  (optional sign, digits, optional decimal point); the exponent and
  inf/NaN forms are not needed by any input considered here.
* Rust `char::is_numeric` / `char::is_whitespace` are modelled on the
  character sets relevant to CSS values (ASCII digits, Unicode whitespace).
* Error payloads that carry a `ParseIntError` / `ParseFloatError` are
  modelled without the payload.
-/

abbrev Str := List Char

/-- Unicode whitespace test backing Rust `str::split_whitespace`. -/
def isWhitespaceChar (c : Char) : Bool :=
  c == ' ' || c == '\t' || c == '\n' || c == '\r' ||
  c.toNat == 0xb || c.toNat == 0xc || c.toNat == 0x85 || c.toNat == 0xa0 ||
  c.toNat == 0x1680 || (0x2000 ≤ c.toNat && c.toNat ≤ 0x200a) ||
  c.toNat == 0x2028 || c.toNat == 0x2029 || c.toNat == 0x202f ||
  c.toNat == 0x205f || c.toNat == 0x3000

/-- Split a character list at every character satisfying `p`, keeping empty
pieces (the behaviour of Rust `str::split`). -/
def splitOnPred (p : Char → Bool) : Str → List Str
  | [] => [[]]
  | x :: xs =>
    match splitOnPred p xs with
    | [] => [[]]
    | y :: ys => if p x then [] :: y :: ys else (x :: y) :: ys

/-- Rust `str::split(c)`. -/
def splitOnChar (c : Char) (s : Str) : List Str :=
  splitOnPred (fun x => x == c) s

/-- Rust `str::split_whitespace`: split on whitespace and drop empty pieces. -/
def splitWhitespace (s : Str) : List Str :=
  (splitOnPred isWhitespaceChar s).filter (fun t => !t.isEmpty)

/-- Rust `str::splitn(2, c)`: the piece before the first occurrence of `c`,
and the remainder after it when `c` occurs. -/
def splitFirstChar (c : Char) : Str → Str × Option Str
  | [] => ([], none)
  | x :: xs =>
    if x = c then ([], some xs)
    else
      let r := splitFirstChar c xs
      (x :: r.1, r.2)

/-- Index of the last occurrence of `c`, used to model `str::rsplitn(2, c)`. -/
def lastIdxOf (c : Char) : Str → Option ℕ
  | [] => none
  | x :: xs =>
    match lastIdxOf c xs with
    | some i => some (i + 1)
    | none => if x = c then some 0 else none

/-- Index of the first occurrence of the substring `pat`, used to model
`str::split(pat).next()`. -/
def findSubstrIdx (pat : Str) : Str → Option ℕ
  | [] => if pat.isPrefixOf ([] : Str) then some 0 else none
  | x :: t =>
    if pat.isPrefixOf (x :: t) then some 0
    else (findSubstrIdx pat t).map (· + 1)

/-- Rust `s.split(pat).next().unwrap()`: the piece before the first
occurrence of `pat` (the whole string when `pat` does not occur). -/
def takeUntilSubstr (pat s : Str) : Str :=
  s.take ((findSubstrIdx pat s).getD s.length)

def isAsciiDigit (c : Char) : Bool := 48 ≤ c.toNat && c.toNat ≤ 57

def digitsToNat (s : Str) : ℕ := s.foldl (fun a c => a * 10 + (c.toNat - 48)) 0

/-- Model of `f32::from_str` restricted to plain decimal literals:
optional sign, then digits with at most one decimal point and at least one
digit.  Exponent and inf/NaN forms are outside the fragment used here. -/
def parseF32 (s : Str) : Option ℚ :=
  match s with
  | [] => none
  | _ =>
    let sb : ℚ × Str :=
      match s with
      | '-' :: t => (-1, t)
      | '+' :: t => (1, t)
      | t => (1, t)
    match splitOnChar '.' sb.2 with
    | [ip] =>
      if ip ≠ [] ∧ ip.all isAsciiDigit then some (sb.1 * digitsToNat ip) else none
    | [ip, fp] =>
      if (ip ≠ [] ∨ fp ≠ []) ∧ ip.all isAsciiDigit ∧ fp.all isAsciiDigit then
        some (sb.1 * ((digitsToNat ip : ℚ) + (digitsToNat fp : ℚ) / (10 ^ fp.length)))
      else none
    | _ => none

/-! ## Lengths (`parse_pixel_value`) -/

def EM_HEIGHT : ℚ := 16

inductive CssMetric
  | Px
  | Em
deriving DecidableEq, Repr

structure PixelValue where
  metric : CssMetric
  number : ℚ
deriving DecidableEq, Repr

def PixelValue.to_pixels (v : PixelValue) : ℚ :=
  match v.metric with
  | .Px => v.number
  | .Em => v.number * EM_HEIGHT

inductive CssBorderRadiusParseError
  | TooManyValues (s : Str)
  | InvalidComponent (s : Str)
  | ValueParseErr
deriving DecidableEq, Repr

/-- `parse_pixel_value`: `split_pos` ends up one past the last character that
is numeric or a decimal point (`0 + 1` when there is none); the suffix from
there is the unit and the prefix is the number. -/
def parse_pixel_value (input : Str) : Except CssBorderRadiusParseError PixelValue :=
  let split_pos :=
    (input.enum.foldl
      (fun acc p => if isAsciiDigit p.2 || p.2 == '.' then p.1 else acc) 0) + 1
  let unit := input.drop split_pos
  if unit = ('p' :: 'x' :: []) then
    match parseF32 (input.take split_pos) with
    | some n => .ok ⟨.Px, n⟩
    | none => .error .ValueParseErr
  else if unit = ('e' :: 'm' :: []) then
    match parseF32 (input.take split_pos) with
    | some n => .ok ⟨.Em, n⟩
    | none => .error .ValueParseErr
  else
    .error (.InvalidComponent (input.drop (split_pos - 1)))

/-! ## Colors -/

structure ColorU where
  r : ℕ
  g : ℕ
  b : ℕ
  a : ℕ
deriving DecidableEq, Repr

structure ColorF where
  r : ℚ
  g : ℚ
  b : ℚ
  a : ℚ
deriving DecidableEq, Repr

/-- `ColorF::from(ColorU)`: each channel divided by 255. -/
def ColorF.from (c : ColorU) : ColorF :=
  ⟨(c.r : ℚ) / 255, (c.g : ℚ) / 255, (c.b : ℚ) / 255, (c.a : ℚ) / 255⟩

inductive CssColorParseError
  | InvalidColor (s : Str)
  | InvalidColorComponent (b : ℕ)
  | ValueParseErr
deriving DecidableEq, Repr

/-- `char as u8` truncates to the low byte. -/
def byteOf (c : Char) : ℕ := c.toNat % 256

/-- The nested `from_hex` helper of `parse_color_no_hash`, on a byte. -/
def from_hex (c : ℕ) : Except CssColorParseError ℕ :=
  if 48 ≤ c ∧ c ≤ 57 then .ok (c - 48)
  else if 97 ≤ c ∧ c ≤ 102 then .ok (c - 97 + 10)
  else if 65 ≤ c ∧ c ≤ 70 then .ok (c - 65 + 10)
  else .error (.InvalidColorComponent c)

/-- Hex digit value of a character under `char::to_digit(16)`. -/
def hexDigitVal? (c : Char) : Option ℕ :=
  if 48 ≤ c.toNat ∧ c.toNat ≤ 57 then some (c.toNat - 48)
  else if 97 ≤ c.toNat ∧ c.toNat ≤ 102 then some (c.toNat - 97 + 10)
  else if 65 ≤ c.toNat ∧ c.toNat ≤ 70 then some (c.toNat - 65 + 10)
  else none

def isHexDigit (c : Char) : Bool := (hexDigitVal? c).isSome

def hexVal (c : Char) : ℕ := (hexDigitVal? c).getD 0

/-- `u32::from_str_radix(s, 16)`: optional leading `+`, then one or more
hex digits, rejecting values that overflow `u32`. -/
def from_str_radix16 (s : Str) : Option ℕ :=
  let s2 : Str := if s.head? = some '+' then s.tail else s
  match s2 with
  | [] => none
  | _ =>
    if s2.all isHexDigit then
      let v := s2.foldl (fun a c => a * 16 + hexVal c) 0
      if v < 2 ^ 32 then some v else none
    else none

/-- `parse_color_no_hash`: dispatch on the length of the hex literal. -/
def parse_color_no_hash (input : Str) : Except CssColorParseError ColorU :=
  match input with
  | [r, g, b] =>
    (match from_hex (byteOf r) with
     | .error e => .error e
     | .ok hr =>
       match from_hex (byteOf g) with
       | .error e => .error e
       | .ok hg =>
         match from_hex (byteOf b) with
         | .error e => .error e
         | .ok hb => .ok ⟨hr * 16 + hr, hg * 16 + hg, hb * 16 + hb, 255⟩)
  | [r, g, b, a] =>
    (match from_hex (byteOf r) with
     | .error e => .error e
     | .ok hr =>
       match from_hex (byteOf g) with
       | .error e => .error e
       | .ok hg =>
         match from_hex (byteOf b) with
         | .error e => .error e
         | .ok hb =>
           match from_hex (byteOf a) with
           | .error e => .error e
           | .ok ha => .ok ⟨hr * 16 + hr, hg * 16 + hg, hb * 16 + hb, ha * 16 + ha⟩)
  | _ =>
    if input.length = 6 then
      match from_str_radix16 input with
      | none => .error .ValueParseErr
      | some v => .ok ⟨(v >>> 16) &&& 255, (v >>> 8) &&& 255, v &&& 255, 255⟩
    else if input.length = 8 then
      match from_str_radix16 input with
      | none => .error .ValueParseErr
      | some v => .ok ⟨(v >>> 24) &&& 255, (v >>> 16) &&& 255, (v >>> 8) &&& 255, v &&& 255⟩
    else .error (.InvalidColor input)

/-- The static named-color table of `parse_color_builtin`: every name in its
CamelCase and hyphenated-lowercase spelling, mapped to its hex literal. -/
def builtinColors : List (String × String) := [
  ("AliceBlue", "F0F8FF"),
  ("alice-blue", "F0F8FF"),
  ("AntiqueWhite", "FAEBD7"),
  ("antique-white", "FAEBD7"),
  ("Aqua", "00FFFF"),
  ("aqua", "00FFFF"),
  ("Aquamarine", "7FFFD4"),
  ("aquamarine", "7FFFD4"),
  ("Azure", "F0FFFF"),
  ("azure", "F0FFFF"),
  ("Beige", "F5F5DC"),
  ("beige", "F5F5DC"),
  ("Bisque", "FFE4C4"),
  ("bisque", "FFE4C4"),
  ("Black", "000000"),
  ("black", "000000"),
  ("BlanchedAlmond", "FFEBCD"),
  ("blanched-almond", "FFEBCD"),
  ("Blue", "0000FF"),
  ("blue", "0000FF"),
  ("BlueViolet", "8A2BE2"),
  ("blue-violet", "8A2BE2"),
  ("Brown", "A52A2A"),
  ("brown", "A52A2A"),
  ("BurlyWood", "DEB887"),
  ("burly-wood", "DEB887"),
  ("CadetBlue", "5F9EA0"),
  ("cadet-blue", "5F9EA0"),
  ("Chartreuse", "7FFF00"),
  ("chartreuse", "7FFF00"),
  ("Chocolate", "D2691E"),
  ("chocolate", "D2691E"),
  ("Coral", "FF7F50"),
  ("coral", "FF7F50"),
  ("CornflowerBlue", "6495ED"),
  ("cornflower-blue", "6495ED"),
  ("Cornsilk", "FFF8DC"),
  ("cornsilk", "FFF8DC"),
  ("Crimson", "DC143C"),
  ("crimson", "DC143C"),
  ("Cyan", "00FFFF"),
  ("cyan", "00FFFF"),
  ("DarkBlue", "00008B"),
  ("dark-blue", "00008B"),
  ("DarkCyan", "008B8B"),
  ("dark-cyan", "008B8B"),
  ("DarkGoldenRod", "B8860B"),
  ("dark-golden-rod", "B8860B"),
  ("DarkGray", "A9A9A9"),
  ("dark-gray", "A9A9A9"),
  ("DarkGrey", "A9A9A9"),
  ("dark-grey", "A9A9A9"),
  ("DarkGreen", "006400"),
  ("dark-green", "006400"),
  ("DarkKhaki", "BDB76B"),
  ("dark-khaki", "BDB76B"),
  ("DarkMagenta", "8B008B"),
  ("dark-magenta", "8B008B"),
  ("DarkOliveGreen", "556B2F"),
  ("dark-olive-green", "556B2F"),
  ("DarkOrange", "FF8C00"),
  ("dark-orange", "FF8C00"),
  ("DarkOrchid", "9932CC"),
  ("dark-orchid", "9932CC"),
  ("DarkRed", "8B0000"),
  ("dark-red", "8B0000"),
  ("DarkSalmon", "E9967A"),
  ("dark-salmon", "E9967A"),
  ("DarkSeaGreen", "8FBC8F"),
  ("dark-sea-green", "8FBC8F"),
  ("DarkSlateBlue", "483D8B"),
  ("dark-slate-blue", "483D8B"),
  ("DarkSlateGray", "2F4F4F"),
  ("dark-slate-gray", "2F4F4F"),
  ("DarkSlateGrey", "2F4F4F"),
  ("dark-slate-grey", "2F4F4F"),
  ("DarkTurquoise", "00CED1"),
  ("dark-turquoise", "00CED1"),
  ("DarkViolet", "9400D3"),
  ("dark-violet", "9400D3"),
  ("DeepPink", "FF1493"),
  ("deep-pink", "FF1493"),
  ("DeepSkyBlue", "00BFFF"),
  ("deep-sky-blue", "00BFFF"),
  ("DimGray", "696969"),
  ("dim-gray", "696969"),
  ("DimGrey", "696969"),
  ("dim-grey", "696969"),
  ("DodgerBlue", "1E90FF"),
  ("dodger-blue", "1E90FF"),
  ("FireBrick", "B22222"),
  ("fire-brick", "B22222"),
  ("FloralWhite", "FFFAF0"),
  ("floral-white", "FFFAF0"),
  ("ForestGreen", "228B22"),
  ("forest-green", "228B22"),
  ("Fuchsia", "FF00FF"),
  ("fuchsia", "FF00FF"),
  ("Gainsboro", "DCDCDC"),
  ("gainsboro", "DCDCDC"),
  ("GhostWhite", "F8F8FF"),
  ("ghost-white", "F8F8FF"),
  ("Gold", "FFD700"),
  ("gold", "FFD700"),
  ("GoldenRod", "DAA520"),
  ("golden-rod", "DAA520"),
  ("Gray", "808080"),
  ("gray", "808080"),
  ("Grey", "808080"),
  ("grey", "808080"),
  ("Green", "008000"),
  ("green", "008000"),
  ("GreenYellow", "ADFF2F"),
  ("green-yellow", "ADFF2F"),
  ("HoneyDew", "F0FFF0"),
  ("honey-dew", "F0FFF0"),
  ("HotPink", "FF69B4"),
  ("hot-pink", "FF69B4"),
  ("IndianRed", "CD5C5C"),
  ("indian-red", "CD5C5C"),
  ("Indigo", "4B0082"),
  ("indigo", "4B0082"),
  ("Ivory", "FFFFF0"),
  ("ivory", "FFFFF0"),
  ("Khaki", "F0E68C"),
  ("khaki", "F0E68C"),
  ("Lavender", "E6E6FA"),
  ("lavender", "E6E6FA"),
  ("LavenderBlush", "FFF0F5"),
  ("lavender-blush", "FFF0F5"),
  ("LawnGreen", "7CFC00"),
  ("lawn-green", "7CFC00"),
  ("LemonChiffon", "FFFACD"),
  ("lemon-chiffon", "FFFACD"),
  ("LightBlue", "ADD8E6"),
  ("light-blue", "ADD8E6"),
  ("LightCoral", "F08080"),
  ("light-coral", "F08080"),
  ("LightCyan", "E0FFFF"),
  ("light-cyan", "E0FFFF"),
  ("LightGoldenRodYellow", "FAFAD2"),
  ("light-golden-rod-yellow", "FAFAD2"),
  ("LightGray", "D3D3D3"),
  ("light-gray", "D3D3D3"),
  ("LightGrey", "D3D3D3"),
  ("light-grey", "D3D3D3"),
  ("LightGreen", "90EE90"),
  ("light-green", "90EE90"),
  ("LightPink", "FFB6C1"),
  ("light-pink", "FFB6C1"),
  ("LightSalmon", "FFA07A"),
  ("light-salmon", "FFA07A"),
  ("LightSeaGreen", "20B2AA"),
  ("light-sea-green", "20B2AA"),
  ("LightSkyBlue", "87CEFA"),
  ("light-sky-blue", "87CEFA"),
  ("LightSlateGray", "778899"),
  ("light-slate-gray", "778899"),
  ("LightSlateGrey", "778899"),
  ("light-slate-grey", "778899"),
  ("LightSteelBlue", "B0C4DE"),
  ("light-steel-blue", "B0C4DE"),
  ("LightYellow", "FFFFE0"),
  ("light-yellow", "FFFFE0"),
  ("Lime", "00FF00"),
  ("lime", "00FF00"),
  ("LimeGreen", "32CD32"),
  ("lime-green", "32CD32"),
  ("Linen", "FAF0E6"),
  ("linen", "FAF0E6"),
  ("Magenta", "FF00FF"),
  ("magenta", "FF00FF"),
  ("Maroon", "800000"),
  ("maroon", "800000"),
  ("MediumAquaMarine", "66CDAA"),
  ("medium-aqua-marine", "66CDAA"),
  ("MediumBlue", "0000CD"),
  ("medium-blue", "0000CD"),
  ("MediumOrchid", "BA55D3"),
  ("medium-orchid", "BA55D3"),
  ("MediumPurple", "9370DB"),
  ("medium-purple", "9370DB"),
  ("MediumSeaGreen", "3CB371"),
  ("medium-sea-green", "3CB371"),
  ("MediumSlateBlue", "7B68EE"),
  ("medium-slate-blue", "7B68EE"),
  ("MediumSpringGreen", "00FA9A"),
  ("medium-spring-green", "00FA9A"),
  ("MediumTurquoise", "48D1CC"),
  ("medium-turquoise", "48D1CC"),
  ("MediumVioletRed", "C71585"),
  ("medium-violet-red", "C71585"),
  ("MidnightBlue", "191970"),
  ("midnight-blue", "191970"),
  ("MintCream", "F5FFFA"),
  ("mint-cream", "F5FFFA"),
  ("MistyRose", "FFE4E1"),
  ("misty-rose", "FFE4E1"),
  ("Moccasin", "FFE4B5"),
  ("moccasin", "FFE4B5"),
  ("NavajoWhite", "FFDEAD"),
  ("navajo-white", "FFDEAD"),
  ("Navy", "000080"),
  ("navy", "000080"),
  ("OldLace", "FDF5E6"),
  ("old-lace", "FDF5E6"),
  ("Olive", "808000"),
  ("olive", "808000"),
  ("OliveDrab", "6B8E23"),
  ("olive-drab", "6B8E23"),
  ("Orange", "FFA500"),
  ("orange", "FFA500"),
  ("OrangeRed", "FF4500"),
  ("orange-red", "FF4500"),
  ("Orchid", "DA70D6"),
  ("orchid", "DA70D6"),
  ("PaleGoldenRod", "EEE8AA"),
  ("pale-golden-rod", "EEE8AA"),
  ("PaleGreen", "98FB98"),
  ("pale-green", "98FB98"),
  ("PaleTurquoise", "AFEEEE"),
  ("pale-turquoise", "AFEEEE"),
  ("PaleVioletRed", "DB7093"),
  ("pale-violet-red", "DB7093"),
  ("PapayaWhip", "FFEFD5"),
  ("papaya-whip", "FFEFD5"),
  ("PeachPuff", "FFDAB9"),
  ("peach-puff", "FFDAB9"),
  ("Peru", "CD853F"),
  ("peru", "CD853F"),
  ("Pink", "FFC0CB"),
  ("pink", "FFC0CB"),
  ("Plum", "DDA0DD"),
  ("plum", "DDA0DD"),
  ("PowderBlue", "B0E0E6"),
  ("powder-blue", "B0E0E6"),
  ("Purple", "800080"),
  ("purple", "800080"),
  ("RebeccaPurple", "663399"),
  ("rebecca-purple", "663399"),
  ("Red", "FF0000"),
  ("red", "FF0000"),
  ("RosyBrown", "BC8F8F"),
  ("rosy-brown", "BC8F8F"),
  ("RoyalBlue", "4169E1"),
  ("royal-blue", "4169E1"),
  ("SaddleBrown", "8B4513"),
  ("saddle-brown", "8B4513"),
  ("Salmon", "FA8072"),
  ("salmon", "FA8072"),
  ("SandyBrown", "F4A460"),
  ("sandy-brown", "F4A460"),
  ("SeaGreen", "2E8B57"),
  ("sea-green", "2E8B57"),
  ("SeaShell", "FFF5EE"),
  ("sea-shell", "FFF5EE"),
  ("Sienna", "A0522D"),
  ("sienna", "A0522D"),
  ("Silver", "C0C0C0"),
  ("silver", "C0C0C0"),
  ("SkyBlue", "87CEEB"),
  ("sky-blue", "87CEEB"),
  ("SlateBlue", "6A5ACD"),
  ("slate-blue", "6A5ACD"),
  ("SlateGray", "708090"),
  ("slate-gray", "708090"),
  ("SlateGrey", "708090"),
  ("slate-grey", "708090"),
  ("Snow", "FFFAFA"),
  ("snow", "FFFAFA"),
  ("SpringGreen", "00FF7F"),
  ("spring-green", "00FF7F"),
  ("SteelBlue", "4682B4"),
  ("steel-blue", "4682B4"),
  ("Tan", "D2B48C"),
  ("tan", "D2B48C"),
  ("Teal", "008080"),
  ("teal", "008080"),
  ("Thistle", "D8BFD8"),
  ("thistle", "D8BFD8"),
  ("Tomato", "FF6347"),
  ("tomato", "FF6347"),
  ("Turquoise", "40E0D0"),
  ("turquoise", "40E0D0"),
  ("Violet", "EE82EE"),
  ("violet", "EE82EE"),
  ("Wheat", "F5DEB3"),
  ("wheat", "F5DEB3"),
  ("White", "FFFFFF"),
  ("white", "FFFFFF"),
  ("WhiteSmoke", "F5F5F5"),
  ("white-smoke", "F5F5F5"),
  ("Yellow", "FFFF00"),
  ("yellow", "FFFF00"),
  ("YellowGreen", "9ACD32"),
  ("yellow-green", "9ACD32"),
  ("Transparent", "FFFFFFFF"),
  ("transparent", "FFFFFFFF")
]

/-- `parse_color_builtin`: verbatim, case-sensitive lookup in the table,
then hex parsing of the canonical literal. -/
def parse_color_builtin (input : Str) : Except CssColorParseError ColorU :=
  match builtinColors.find? (fun p => p.1.toList == input) with
  | some p => parse_color_no_hash p.2.toList
  | none => .error (.InvalidColor input)

/-- `parse_css_color`: strip a leading hash marker, else use the name table. -/
def parse_css_color (input : Str) : Except CssColorParseError ColorU :=
  match input with
  | '#' :: rest => parse_color_no_hash rest
  | _ => parse_color_builtin input

/-! ## Percentages and gradient stops -/

/-- `parse_percentage`: `rsplitn(2, %)` discards everything after the last
`%` and parses what precedes it; no `%` (or a bad number) yields `none`.
Note that the returned value is the raw number before the `%` sign (the
function is documented in the source as parsing `"5%" -> 5`). -/
def parse_percentage (input : Str) : Option ℚ :=
  match lastIdxOf '%' input with
  | none => none
  | some i => parseF32 (input.take i)

inductive CssGradientStopParseError
  | Error (s : Str)
  | ColorParseError (e : CssColorParseError)
deriving DecidableEq, Repr

structure GradientStopPre where
  offset : Option ℚ
  color : ColorF
deriving DecidableEq, Repr

/-- `parse_gradient_stop`: first token is a color; an optional second token
is run through `parse_percentage` (a failed percentage gives offset `none`,
not an error). -/
def parse_gradient_stop (input : Str) : Except CssGradientStopParseError GradientStopPre :=
  match splitWhitespace input with
  | [] => .error (.Error input)
  | first_item :: rest =>
    match parse_css_color first_item with
    | .error e => .error (.ColorParseError e)
    | .ok c =>
      match rest with
      | [] => .ok ⟨none, ColorF.from c⟩
      | second_item :: _ => .ok ⟨parse_percentage second_item, ColorF.from c⟩

/-! ## Directions, corners and shapes -/

inductive DirectionCorner
  | Right
  | Left
  | Top
  | Bottom
  | TopRight
  | TopLeft
  | BottomRight
  | BottomLeft
deriving DecidableEq, Repr, Fintype

/-- `DirectionCorner::opposite`: reflection across the center. -/
def DirectionCorner.opposite : DirectionCorner → DirectionCorner
  | .Right => .Left
  | .Left => .Right
  | .Top => .Bottom
  | .Bottom => .Top
  | .TopRight => .BottomLeft
  | .BottomLeft => .TopRight
  | .TopLeft => .BottomRight
  | .BottomRight => .TopLeft

/-- `DirectionCorner::combine`: two adjacent edges combine to the diagonal
corner they bound; every other pair is undefined. -/
def DirectionCorner.combine : DirectionCorner → DirectionCorner → Option DirectionCorner
  | .Right, .Top | .Top, .Right => some .TopRight
  | .Left, .Top | .Top, .Left => some .TopLeft
  | .Right, .Bottom | .Bottom, .Right => some .BottomRight
  | .Left, .Bottom | .Bottom, .Left => some .BottomLeft
  | _, _ => none

inductive Direction
  | Angle (deg : ℚ)
  | FromTo (f t : DirectionCorner)
deriving DecidableEq, Repr

inductive Shape
  | Ellipse
  | Circle
deriving DecidableEq, Repr

inductive CssDirectionCornerParseError
  | InvalidDirection (s : Str)
deriving DecidableEq, Repr

inductive CssDirectionParseError
  | Error (s : Str)
  | InvalidArguments (s : Str)
  | ParseFloat
  | CornerError (e : CssDirectionCornerParseError)
deriving DecidableEq, Repr

inductive CssShapeParseError
  | InvalidShape (s : Str)
deriving DecidableEq, Repr

def parse_direction_corner (input : Str) : Except CssDirectionCornerParseError DirectionCorner :=
  if input = ('r' :: 'i' :: 'g' :: 'h' :: 't' :: []) then .ok .Right
  else if input = ('l' :: 'e' :: 'f' :: 't' :: []) then .ok .Left
  else if input = ('t' :: 'o' :: 'p' :: []) then .ok .Top
  else if input = ('b' :: 'o' :: 't' :: 't' :: 'o' :: 'm' :: []) then .ok .Bottom
  else .error (.InvalidDirection input)

/-- The exact rational value of the 32-bit float constant
`std::f32::consts::PI` (`0x40490FDB`). -/
def PI32 : ℚ := 13176795 / 4194304

/-- `parse_direction`.  The angle suffixes are tested with `ends_with` in
the order `deg`, `rad`, `grad` (so a token ending in `grad` is taken by the
`rad` test first); the numeric part is everything before the first
occurrence of the suffix pattern.  The radian branch multiplies by
`180.0 * PI` exactly as the source does. -/
def parse_direction (input : Str) : Except CssDirectionParseError Direction :=
  let tokens := splitWhitespace input
  let count := tokens.length
  match tokens with
  | [] => .error (.Error input)
  | first_input :: restToks =>
    if ('d' :: 'e' :: 'g' :: []).isSuffixOf first_input then
      match parseF32 (takeUntilSubstr ('d' :: 'e' :: 'g' :: []) first_input) with
      | some v => .ok (.Angle v)
      | none => .error .ParseFloat
    else if ('r' :: 'a' :: 'd' :: []).isSuffixOf first_input then
      match parseF32 (takeUntilSubstr ('r' :: 'a' :: 'd' :: []) first_input) with
      | some v => .ok (.Angle (v * 180 * PI32))
      | none => .error .ParseFloat
    else if ('g' :: 'r' :: 'a' :: 'd' :: []).isSuffixOf first_input then
      match parseF32 (takeUntilSubstr ('g' :: 'r' :: 'a' :: 'd' :: []) first_input) with
      | some v => .ok (.Angle (v / 400 * 360))
      | none => .error .ParseFloat
    else if first_input ≠ ('t' :: 'o' :: []) then
      .error (.InvalidArguments input)
    else
      match restToks with
      | [] => .error (.Error input)
      | second_input :: rest2 =>
        match parse_direction_corner second_input with
        | .error e => .error (.CornerError e)
        | .ok e1 =>
          match count with
          | 2 => .ok (.FromTo e1.opposite e1)
          | 3 =>
            match rest2 with
            | [] => .error (.Error input)
            | third_input :: _ =>
              match parse_direction_corner third_input with
              | .error e => .error (.CornerError e)
              | .ok newEnd =>
                match e1.combine newEnd with
                | none => .error (.Error input)
                | some ne => .ok (.FromTo ne.opposite ne)
          | _ => .error (.InvalidArguments input)

def parse_shape (input : Str) : Except CssShapeParseError Shape :=
  if input = ('c' :: 'i' :: 'r' :: 'c' :: 'l' :: 'e' :: []) then .ok .Circle
  else if input = ('e' :: 'l' :: 'l' :: 'i' :: 'p' :: 's' :: 'e' :: []) then .ok .Ellipse
  else .error (.InvalidShape input)

/-! ## The gradient / background parser -/

inductive ExtendMode
  | Clamp
  | Repeat
deriving DecidableEq, Repr

structure LinearGradientPreInfo where
  direction : Direction
  extend_mode : ExtendMode
  stops : List GradientStopPre
deriving DecidableEq, Repr

structure RadialGradientPreInfo where
  shape : Shape
  extend_mode : ExtendMode
  stops : List GradientStopPre
deriving DecidableEq, Repr

inductive ParsedGradient
  | LinearGradient (g : LinearGradientPreInfo)
  | RadialGradient (g : RadialGradientPreInfo)
deriving DecidableEq, Repr

/-- The stop list of either gradient variant. -/
def gradientStops : ParsedGradient → List GradientStopPre
  | .LinearGradient g => g.stops
  | .RadialGradient g => g.stops

inductive CssBackgroundParseError
  | Error (s : Str)
  | InvalidBackground (s : Str)
  | UnclosedGradient (s : Str)
  | NoDirection (s : Str)
  | TooFewGradientStops (s : Str)
  | DirectionParseError (e : CssDirectionParseError)
  | GradientParseError (e : CssGradientStopParseError)
  | ShapeParseError (e : CssShapeParseError)
deriving DecidableEq, Repr

inductive GradientType
  | LinearGradient
  | RepeatingLinearGradient
  | RadialGradient
  | RepeatingRadialGradient
deriving DecidableEq, Repr

/-- The keyword match at the head of `parse_css_background`. -/
def gradTypeOf (s : Str) : Option GradientType :=
  if s = ("linear-gradient").toList then some .LinearGradient
  else if s = ("repeating-linear-gradient").toList then some .RepeatingLinearGradient
  else if s = ("radial-gradient").toList then some .RadialGradient
  else if s = ("repeating-radial-gradient").toList then some .RepeatingRadialGradient
  else none

/-- Number of consecutive `none` offsets at the head of the lookahead list
(the `next_count` of the inner loop). -/
def countLeadingNone : List (Option ℚ) → ℕ
  | none :: rest => countLeadingNone rest + 1
  | _ => 0

/-- The first explicit offset in the lookahead list (the `next_value` of the
inner loop), if any. -/
def firstSomeVal : List (Option ℚ) → Option ℚ
  | [] => none
  | some v :: _ => some v
  | none :: rest => firstSomeVal rest

/-- The offset-correction loop of `parse_css_background` (`// correct
percentages`).  The loop walks the stop vector once; at step `i` it reads
the original offset of stop `i` and overwrites it:
* an explicit offset is kept, becomes the running `last_stop`, and clears
  `increase_stop_cnt`;
* a missing offset while `increase_stop_cnt` is active advances `last_stop`
  by the increase and stores it;
* otherwise the loop looks ahead for the next explicit offset (default
  `1.0`), computes `increase = (next_value - last_stop) / next_count`, and
  stores `last_stop` (or `0.0` for the very first stop) without advancing
  `last_stop`.

Since iteration `i` only ever writes slot `i`, reads of slot `i` and of the
lookahead slots always see original values, so the imperative loop is
faithfully a fold over the original list carrying
`(i, last_stop, increase_stop_cnt)`.  The condition
`next_count == 1 && (color_stop_len - i) == 1` of the source is kept
verbatim: `color_stop_len - i` is `1 +` the length of the lookahead list. -/
def normalizeOffsets : List (Option ℚ) → ℕ → ℚ → Option ℚ → List (Option ℚ)
  | [], _, _, _ => []
  | some s :: rest, i, _, _ => some s :: normalizeOffsets rest (i + 1) s none
  | none :: rest, i, lastStop, some inc =>
    some (lastStop + inc) :: normalizeOffsets rest (i + 1) (lastStop + inc) (some inc)
  | none :: rest, i, lastStop, none =>
    let next_count := countLeadingNone rest
    let next_value := (firstSomeVal rest).getD 1
    let increase := (next_value - lastStop) / (next_count : ℚ)
    let assigned :=
      if next_count = 1 ∧ rest.length = 0 then lastStop
      else if i = 0 then 0 else lastStop
    some assigned :: normalizeOffsets rest (i + 1) lastStop (some increase)

/-- Write the corrected offsets back into the stop records (the loop only
ever mutates the `offset` field; colors are untouched). -/
def applyOffsets : List GradientStopPre → List (Option ℚ) → List GradientStopPre
  | s :: ss, o :: os => ⟨o, s.color⟩ :: applyOffsets ss os
  | _, _ => []

/-- The stop-collection loop: each comma-segment through
`parse_gradient_stop`, stopping at the first failure. -/
def parseStops : List Str → Except CssBackgroundParseError (List GradientStopPre)
  | [] => .ok []
  | s :: ss =>
    match parse_gradient_stop s with
    | .error e => .error (.GradientParseError e)
    | .ok st =>
      match parseStops ss with
      | .error e => .error e
      | .ok r => .ok (st :: r)

/-- Offset correction plus the final per-kind descriptor construction. -/
def normalizeAndBuild (gt : GradientType) (direction : Direction) (shape : Shape)
    (color_stops : List GradientStopPre) : ParsedGradient :=
  let offs := normalizeOffsets (color_stops.map (·.offset)) 0 0 none
  let stops := applyOffsets color_stops offs
  match gt with
  | .LinearGradient => .LinearGradient ⟨direction, .Clamp, stops⟩
  | .RepeatingLinearGradient => .LinearGradient ⟨direction, .Repeat, stops⟩
  | .RadialGradient => .RadialGradient ⟨shape, .Clamp, stops⟩
  | .RepeatingRadialGradient => .RadialGradient ⟨shape, .Repeat, stops⟩

/-- `parse_css_background`: `<keyword>(<body>)`, body split on commas, an
optional direction (linear) or shape (radial) prefix segment, at least two
stop segments, then offset correction. -/
def parse_css_background (input : Str) : Except CssBackgroundParseError ParsedGradient :=
  let p := splitFirstChar '(' input
  match gradTypeOf p.1 with
  | none => .error (.InvalidBackground p.1)
  | some gradient_type =>
    match p.2 with
    | none => .error (.InvalidBackground input)
    | some next_item =>
      match lastIdxOf ')' next_item with
      | none => .error (.UnclosedGradient input)
      | some cut =>
        let brace_contents := next_item.take cut
        match splitOnChar ',' brace_contents with
        | [] => .error (.NoDirection input)
        | first_brace_item :: rest =>
          let is_linear := gradient_type = GradientType.LinearGradient ∨
            gradient_type = GradientType.RepeatingLinearGradient
          let is_radial := gradient_type = GradientType.RadialGradient ∨
            gradient_type = GradientType.RepeatingRadialGradient
          let dirRes := parse_direction first_brace_item
          let shapeRes := parse_shape first_brace_item
          let first_is_direction : Bool :=
            match dirRes with
            | .ok _ => true
            | .error _ => false
          let first_is_shape : Bool :=
            match shapeRes with
            | .ok _ => true
            | .error _ => false
          let direction : Direction :=
            if is_linear then
              match dirRes with
              | .ok d => d
              | .error _ => .FromTo .Top .Bottom
            else .FromTo .Top .Bottom
          let shape : Shape :=
            if is_radial then
              match shapeRes with
              | .ok sh => sh
              | .error _ => .Ellipse
            else .Ellipse
          let consumed :=
            (is_linear ∧ first_is_direction = true) ∨ (is_radial ∧ first_is_shape = true)
          let stopSegs := if consumed then rest else first_brace_item :: rest
          if stopSegs.length < 2 then .error (.TooFewGradientStops input)
          else
            match parseStops stopSegs with
            | .error e => .error e
            | .ok color_stops =>
              .ok (normalizeAndBuild gradient_type direction shape color_stops)

/-! ## Box shadows -/

inductive BoxShadowClipMode
  | Outset
  | Inset
deriving DecidableEq, Repr

structure BoxShadowPreDisplayItem where
  offsetX : ℚ
  offsetY : ℚ
  color : ColorF
  blur_radius : ℚ
  spread_radius : ℚ
  clip_mode : BoxShadowClipMode
deriving DecidableEq, Repr

inductive CssShadowParseError
  | InvalidSingleStatement (s : Str)
  | TooManyComponents (s : Str)
  | ValueParseErr (e : CssBorderRadiusParseError)
  | ColorParseError (e : CssColorParseError)
deriving DecidableEq, Repr

def insetTok : Str := ('i' :: 'n' :: 's' :: 'e' :: 't' :: [])
def outsetTok : Str := ('o' :: 'u' :: 't' :: 's' :: 'e' :: 't' :: [])

/-- `parse_css_box_shadow`: a grammar keyed on the whitespace token count.
Before dispatching, the last token is inspected; with more than two tokens a
trailing `inset`/`outset` keyword fixes the clip mode.  Each arm then
consumes tokens left to right exactly as the source iterator does (so in the
4-token arm with a trailing keyword the third token is handed to the color
parser, and in the 6-token arm the sixth token is never consumed). -/
def parse_css_box_shadow (input : Str) :
    Except CssShadowParseError (Option BoxShadowPreDisplayItem) :=
  let tokens := splitWhitespace input
  let count := tokens.length
  let last_val := tokens.getLast?
  let is_inset := last_val = some insetTok ∨ last_val = some outsetTok
  let clip_mode : BoxShadowClipMode :=
    if count > 2 ∧ is_inset then
      if last_val = some outsetTok then .Outset
      else if last_val = some insetTok then .Inset
      else .Outset
    else .Outset
  let blackF : ColorF := ⟨0, 0, 0, 1⟩
  let tok := fun i => tokens.getD i []
  match count with
  | 1 =>
    if tok 0 = ('n' :: 'o' :: 'n' :: 'e' :: []) then .ok none
    else .error (.InvalidSingleStatement input)
  | 2 =>
    match parse_pixel_value (tok 0) with
    | .error e => .error (.ValueParseErr e)
    | .ok h =>
      match parse_pixel_value (tok 1) with
      | .error e => .error (.ValueParseErr e)
      | .ok v =>
        .ok (some ⟨h.to_pixels, v.to_pixels, blackF, 0, 0, clip_mode⟩)
  | 3 =>
    match parse_pixel_value (tok 0) with
    | .error e => .error (.ValueParseErr e)
    | .ok h =>
      match parse_pixel_value (tok 1) with
      | .error e => .error (.ValueParseErr e)
      | .ok v =>
        if is_inset then
          .ok (some ⟨h.to_pixels, v.to_pixels, blackF, 0, 0, clip_mode⟩)
        else
          match parse_css_color (tok 2) with
          | .error e => .error (.ColorParseError e)
          | .ok c =>
            .ok (some ⟨h.to_pixels, v.to_pixels, ColorF.from c, 0, 0, clip_mode⟩)
  | 4 =>
    match parse_pixel_value (tok 0) with
    | .error e => .error (.ValueParseErr e)
    | .ok h =>
      match parse_pixel_value (tok 1) with
      | .error e => .error (.ValueParseErr e)
      | .ok v =>
        if is_inset then
          match parse_css_color (tok 2) with
          | .error e => .error (.ColorParseError e)
          | .ok c =>
            .ok (some ⟨h.to_pixels, v.to_pixels, ColorF.from c, 0, 0, clip_mode⟩)
        else
          match parse_pixel_value (tok 2) with
          | .error e => .error (.ValueParseErr e)
          | .ok blur =>
            match parse_css_color (tok 3) with
            | .error e => .error (.ColorParseError e)
            | .ok c =>
              .ok (some ⟨h.to_pixels, v.to_pixels, ColorF.from c, blur.to_pixels, 0, clip_mode⟩)
  | 5 =>
    match parse_pixel_value (tok 0) with
    | .error e => .error (.ValueParseErr e)
    | .ok h =>
      match parse_pixel_value (tok 1) with
      | .error e => .error (.ValueParseErr e)
      | .ok v =>
        match parse_pixel_value (tok 2) with
        | .error e => .error (.ValueParseErr e)
        | .ok blur =>
          if is_inset then
            match parse_css_color (tok 3) with
            | .error e => .error (.ColorParseError e)
            | .ok c =>
              .ok (some ⟨h.to_pixels, v.to_pixels, ColorF.from c, blur.to_pixels, 0, clip_mode⟩)
          else
            match parse_pixel_value (tok 3) with
            | .error e => .error (.ValueParseErr e)
            | .ok spread =>
              match parse_css_color (tok 4) with
              | .error e => .error (.ColorParseError e)
              | .ok c =>
                .ok (some ⟨h.to_pixels, v.to_pixels, ColorF.from c, blur.to_pixels,
                  spread.to_pixels, clip_mode⟩)
  | 6 =>
    match parse_pixel_value (tok 0) with
    | .error e => .error (.ValueParseErr e)
    | .ok h =>
      match parse_pixel_value (tok 1) with
      | .error e => .error (.ValueParseErr e)
      | .ok v =>
        match parse_pixel_value (tok 2) with
        | .error e => .error (.ValueParseErr e)
        | .ok blur =>
          match parse_pixel_value (tok 3) with
          | .error e => .error (.ValueParseErr e)
          | .ok spread =>
            match parse_css_color (tok 4) with
            | .error e => .error (.ColorParseError e)
            | .ok c =>
              .ok (some ⟨h.to_pixels, v.to_pixels, ColorF.from c, blur.to_pixels,
                spread.to_pixels, clip_mode⟩)
  | _ => .error (.TooManyComponents input)

/-! ## Border radius -/

structure BorderRadius where
  top_left : ℚ × ℚ
  top_right : ℚ × ℚ
  bottom_right : ℚ × ℚ
  bottom_left : ℚ × ℚ
deriving DecidableEq, Repr

def BorderRadius.uniform (r : ℚ) : BorderRadius := ⟨(r, r), (r, r), (r, r), (r, r)⟩

/-- `parse_css_border_radius`: the CSS corner-assignment shorthand, keyed on
the whitespace token count; anything not between 1 and 4 tokens is
`TooManyValues` carrying the whole input. -/
def parse_css_border_radius (input : Str) :
    Except CssBorderRadiusParseError BorderRadius :=
  match splitWhitespace input with
  | [t1] =>
    match parse_pixel_value t1 with
    | .error e => .error e
    | .ok r => .ok (BorderRadius.uniform r.to_pixels)
  | [t1, t2] =>
    match parse_pixel_value t1 with
    | .error e => .error e
    | .ok r1 =>
      match parse_pixel_value t2 with
      | .error e => .error e
      | .ok r2 =>
        let a := r1.to_pixels
        let b := r2.to_pixels
        .ok ⟨(a, a), (b, b), (a, a), (b, b)⟩
  | [t1, t2, t3] =>
    match parse_pixel_value t1 with
    | .error e => .error e
    | .ok r1 =>
      match parse_pixel_value t2 with
      | .error e => .error e
      | .ok r2 =>
        match parse_pixel_value t3 with
        | .error e => .error e
        | .ok r3 =>
          let a := r1.to_pixels
          let b := r2.to_pixels
          let c := r3.to_pixels
          .ok ⟨(a, a), (b, b), (c, c), (b, b)⟩
  | [t1, t2, t3, t4] =>
    match parse_pixel_value t1 with
    | .error e => .error e
    | .ok r1 =>
      match parse_pixel_value t2 with
      | .error e => .error e
      | .ok r2 =>
        match parse_pixel_value t3 with
        | .error e => .error e
        | .ok r3 =>
          match parse_pixel_value t4 with
          | .error e => .error e
          | .ok r4 =>
            .ok ⟨(r1.to_pixels, r1.to_pixels), (r2.to_pixels, r2.to_pixels),
              (r3.to_pixels, r3.to_pixels), (r4.to_pixels, r4.to_pixels)⟩
  | _ => .error (.TooManyValues input)

/-! ## Spec-side helper definitions used by the statements -/

/-- The four edge values of `DirectionCorner` that are horizontal. -/
def isHorizEdge : DirectionCorner → Bool
  | .Right | .Left => true
  | _ => false

/-- The four edge values of `DirectionCorner` that are vertical. -/
def isVertEdge : DirectionCorner → Bool
  | .Top | .Bottom => true
  | _ => false

/-- Two perpendicular edges, in either order (spec wording for when
`combine` is defined). -/
def edgesPerpendicular (a b : DirectionCorner) : Bool :=
  (isHorizEdge a && isVertEdge b) || (isVertEdge a && isHorizEdge b)

/-- Spec wording for the stop-offset invariant: a defined offset lying in
`[0, 1]`. -/
def offsetInUnitInterval (s : GradientStopPre) : Prop :=
  match s.offset with
  | some v => 0 ≤ v ∧ v ≤ 1
  | none => False

instance (s : GradientStopPre) : Decidable (offsetInUnitInterval s) := by
  unfold offsetInUnitInterval; split <;> infer_instance

/-- The offsets of a stop list, in order. -/
def stopOffsets (l : List GradientStopPre) : List (Option ℚ) :=
  l.map (·.offset)

/-! # Theorems -/

/-! ## Claim C7: corner algebra -/

/-- Claim C7: over the 8-element `DirectionCorner` enumeration, `opposite`
is an involution, `combine` is symmetric, two perpendicular edges combine
to the diagonal corner they bound (for example `Right`/`Top` in either
order give `TopRight`), `combine Right Left = none`, no value combines
with itself, and `combine` is defined exactly on pairs of perpendicular
edges (so any pair that repeats an edge, pairs an edge with its opposite,
or involves a diagonal corner is undefined). -/
theorem c7_corner_algebra :
    (∀ x : DirectionCorner, x.opposite.opposite = x) ∧
    (∀ a b : DirectionCorner, a.combine b = b.combine a) ∧
    DirectionCorner.combine .Right .Top = some .TopRight ∧
    DirectionCorner.combine .Top .Right = some .TopRight ∧
    DirectionCorner.combine .Left .Top = some .TopLeft ∧
    DirectionCorner.combine .Top .Left = some .TopLeft ∧
    DirectionCorner.combine .Right .Bottom = some .BottomRight ∧
    DirectionCorner.combine .Bottom .Right = some .BottomRight ∧
    DirectionCorner.combine .Left .Bottom = some .BottomLeft ∧
    DirectionCorner.combine .Bottom .Left = some .BottomLeft ∧
    DirectionCorner.combine .Right .Left = none ∧
    (∀ a : DirectionCorner, a.combine a = none) ∧
    (∀ a b : DirectionCorner, (a.combine b).isSome = edgesPerpendicular a b) := by
  decide

/-! ## Claim C6: angle conversions in `parse_direction` -/

/-- Claim C6 (code evaluation): the `deg` branch parses `"50deg"` to
`Angle 50` as claimed, but the `rad` branch multiplies by `180 * π`
instead of dividing by `π` (so `"50rad"` yields `50 * 180 * PI32`, which
differs from the claimed `50 * 180 / PI32`), and a `grad` suffix is
captured by the `ends_with("rad")` test first, so `"50grad"` fails with a
float-parse error instead of yielding `Angle (50 * 360 / 400) = Angle 45`. -/
theorem c6_angle_conversions :
    parse_direction ("50deg".toList) = .ok (.Angle 50) ∧
    parse_direction ("50rad".toList) = .ok (.Angle (50 * 180 * PI32)) ∧
    (50 * 180 * PI32 : ℚ) ≠ 50 * 180 / PI32 ∧
    parse_direction ("50grad".toList) = .error .ParseFloat := by
  refine ⟨by with_unfolding_all rfl, by with_unfolding_all rfl, ?_, by with_unfolding_all rfl⟩
  intro h
  rw [PI32] at h
  norm_num at h

/-! ## Claim C1: percentage stops and the radial example -/

/-- Claim C1 (code evaluation): the gradient-stop parser stores the raw
percentage number, not the fraction: `"red 10%"` parses to offset `10`
rather than the claimed `1/10`, and the full radial example produces stop
offsets `[10, 50, 50, 1]` instead of the claimed (and unit-tested)
`[1/10, 1/2, 3/4, 1]`. -/
theorem c1_percentage_and_radial_eval :
    parse_gradient_stop ("red 10%".toList) = .ok ⟨some 10, ⟨1, 0, 0, 1⟩⟩ ∧
    (10 : ℚ) ≠ 1 / 10 ∧
    parse_css_background
        ("repeating-radial-gradient(circle, red 10%, blue 50%, lime, yellow)".toList) =
      .ok (.RadialGradient ⟨.Circle, .Repeat,
        [⟨some 10, ⟨1, 0, 0, 1⟩⟩, ⟨some 50, ⟨0, 0, 1, 1⟩⟩,
         ⟨some 50, ⟨0, 1, 0, 1⟩⟩, ⟨some 1, ⟨1, 1, 0, 1⟩⟩]⟩) ∧
    [some (10 : ℚ), some 50, some 50, some 1] ≠
      [some (1 / 10 : ℚ), some (1 / 2), some (3 / 4), some 1] := by
  refine ⟨by with_unfolding_all rfl, by norm_num, by with_unfolding_all rfl, ?_⟩
  intro h
  have := List.head_eq_of_cons_eq h
  simp only [Option.some.injEq] at this
  norm_num at this

/-! ## Claim C2: the stop-offset invariant -/

/-- Claim C2 (counterexample): `"linear-gradient(red 50%, lime 20%)"`
parses successfully, yet its stop offsets are `[50, 20]` — the first is
outside `[0, 1]` and the pair is decreasing — so of the three claimed
invariants only definedness survives. -/
theorem c2_range_monotone_counterexample :
    parse_css_background ("linear-gradient(red 50%, lime 20%)".toList) =
      .ok (.LinearGradient ⟨.FromTo .Top .Bottom, .Clamp,
        [⟨some 50, ⟨1, 0, 0, 1⟩⟩, ⟨some 20, ⟨0, 1, 0, 1⟩⟩]⟩) ∧
    ¬ offsetInUnitInterval (⟨some 50, ⟨1, 0, 0, 1⟩⟩ : GradientStopPre) ∧
    ¬ ((50 : ℚ) ≤ 20) := by
  refine ⟨by with_unfolding_all rfl, ?_, by norm_num⟩
  rw [offsetInUnitInterval]
  norm_num

/-! ## Claim C4: the trailing unspecified stop -/

/-- Claim C4 (counterexample): in `"linear-gradient(red 50%, blue)"` the
final stop has no explicit offset, yet normalization assigns it the
previous anchor value `50`, not `1`. -/
theorem c4_final_one_counterexample :
    parse_css_background ("linear-gradient(red 50%, blue)".toList) =
      .ok (.LinearGradient ⟨.FromTo .Top .Bottom, .Clamp,
        [⟨some 50, ⟨1, 0, 0, 1⟩⟩, ⟨some 50, ⟨0, 0, 1, 1⟩⟩]⟩) ∧
    (stopOffsets [⟨some 50, ⟨1, 0, 0, 1⟩⟩, ⟨some 50, ⟨0, 0, 1, 1⟩⟩]).getLast? =
      some (some 50) ∧
    (50 : ℚ) ≠ 1 := by
  refine ⟨by with_unfolding_all rfl, ?_, by norm_num⟩
  simp [stopOffsets]

/-! ## Claim C5: four box-shadow tokens with a trailing keyword -/

/-- Claim C5 (counterexample): with four tokens ending in `inset`, the third
token is handed to the color parser, not the length parser, so the claimed
reading `(h-offset, v-offset, blur)` with a default color is refuted:
`"1px 2px 3px inset"` fails with a color error on `"3px"` instead of
succeeding with blur `3`. -/
theorem c5_blur_default_color_counterexample :
    parse_css_box_shadow ("1px 2px 3px inset".toList) =
      .error (.ColorParseError (.InvalidColor ("3px".toList))) := by
  with_unfolding_all rfl

/-! ## Facts about the offset-correction loop -/

theorem normalizeOffsets_length (l : List (Option ℚ)) :
    ∀ (i : ℕ) (last : ℚ) (inc : Option ℚ),
      (normalizeOffsets l i last inc).length = l.length := by
  induction l with
  | nil => intro i last inc; rfl
  | cons x rest ih =>
    intro i last inc
    rcases x with _ | s <;> rcases inc with _ | j <;>
      simp [normalizeOffsets, ih]

theorem normalizeOffsets_ne_nil {l : List (Option ℚ)} (h : l ≠ [])
    (i : ℕ) (last : ℚ) (inc : Option ℚ) :
    normalizeOffsets l i last inc ≠ [] := by
  intro hc
  apply h
  have := normalizeOffsets_length l i last inc
  rw [hc] at this
  exact List.eq_nil_of_length_eq_zero this.symm

/-- Every slot of the corrected offset list is filled in. -/
theorem normalizeOffsets_isSome (l : List (Option ℚ)) :
    ∀ (i : ℕ) (last : ℚ) (inc : Option ℚ),
      ∀ o ∈ normalizeOffsets l i last inc, o.isSome = true := by
  induction l with
  | nil => intro i last inc o ho; cases ho
  | cons x rest ih =>
    intro i last inc o ho
    rcases x with _ | s <;> rcases inc with _ | j <;>
      (simp only [normalizeOffsets, List.mem_cons] at ho;
       rcases ho with rfl | ho) <;>
      first
        | rfl
        | exact ih _ _ _ o ho

theorem countLeadingNone_replicate (m : ℕ) :
    countLeadingNone (List.replicate m (none : Option ℚ)) = m := by
  induction m with
  | zero => rfl
  | succ m ih => rw [List.replicate_succ]; simpa [countLeadingNone] using ih

theorem firstSomeVal_replicate (m : ℕ) :
    firstSomeVal (List.replicate m (none : Option ℚ)) = none := by
  induction m with
  | zero => rfl
  | succ m ih => rw [List.replicate_succ]; simpa [firstSomeVal] using ih

/-- `(a :: l).getLast?` looks past the head whenever the tail is nonempty. -/
theorem getLast?_cons_ne {A : Type} (a : A) {l : List A} (h : l ≠ []) :
    (a :: l).getLast? = l.getLast? := by
  cases l with
  | nil => exact absurd rfl h
  | cons b t => exact List.getLast?_cons_cons

/-- A run of missing offsets while `increase_stop_cnt` is active becomes an
arithmetic progression. -/
theorem normalizeOffsets_replicate_inc (m : ℕ) :
    ∀ (i : ℕ) (last j : ℚ),
      normalizeOffsets (List.replicate m none) i last (some j) =
        (List.range m).map (fun k : ℕ => some (last + ((k : ℚ) + 1) * j)) := by
  induction m with
  | zero => intro i last j; rfl
  | succ m ih =>
    intro i last j
    rw [List.replicate_succ, List.range_succ_eq_map]
    show some (last + j) ::
        normalizeOffsets (List.replicate m none) (i + 1) (last + j) (some j) = _
    rw [ih, List.map_cons, List.map_map]
    refine congrArg₂ List.cons (by norm_num) ?_
    refine List.map_congr_left fun k _ => ?_
    simp only [Function.comp_apply, Option.some.injEq]
    push_cast
    ring

/-- A fresh run of `m + 1` missing offsets: the first slot is written with
the running value (also when `i = 0`, since the running value is then still
the initial `0`), and the rest interpolate towards the next explicit value,
which defaults to `1`. -/
theorem normalizeOffsets_replicate_none (m i : ℕ) (last : ℚ)
    (h : last = 0 ∨ i ≠ 0) :
    normalizeOffsets (List.replicate (m + 1) none) i last none =
      some last ::
        (List.range m).map
          (fun k : ℕ => some (last + ((k : ℚ) + 1) * ((1 - last) / (m : ℚ)))) := by
  rw [List.replicate_succ]
  show (let next_count := countLeadingNone (List.replicate m none);
    let next_value := (firstSomeVal (List.replicate m none)).getD 1;
    let increase := (next_value - last) / (next_count : ℚ);
    let assigned :=
      if next_count = 1 ∧ (List.replicate m (none : Option ℚ)).length = 0 then last
      else if i = 0 then 0 else last;
    some assigned ::
      normalizeOffsets (List.replicate m none) (i + 1) last (some increase)) = _
  rw [countLeadingNone_replicate, firstSomeVal_replicate]
  simp only [List.length_replicate, Option.getD_none]
  have hdead : ¬ (m = 1 ∧ m = 0) := by omega
  rw [if_neg hdead, normalizeOffsets_replicate_inc]
  refine congrArg₂ List.cons ?_ rfl
  rcases h with rfl | h
  · split <;> rfl
  · rw [if_neg h]

/-- The last corrected offset of a fresh run that reaches the end of the
stop list: a run of length 1 keeps the running value, a longer run ends
exactly at `1`. -/
theorem normalizeOffsets_replicate_none_getLast (m i : ℕ) (last : ℚ)
    (h : last = 0 ∨ i ≠ 0) :
    (normalizeOffsets (List.replicate (m + 1) none) i last none).getLast? =
      some (if m = 0 then some last else some 1) := by
  rw [normalizeOffsets_replicate_none m i last h]
  cases m with
  | zero => rfl
  | succ m' =>
    rw [if_neg (Nat.succ_ne_zero m')]
    have hne : (List.range (m' + 1)).map
        (fun k : ℕ => some (last + ((k : ℚ) + 1) * ((1 - last) / ((m' + 1 : ℕ) : ℚ)))) ≠ [] := by
      simp
    rw [getLast?_cons_ne _ hne, List.getLast?_map, List.range_succ,
      List.getLast?_concat]
    simp only [Option.map_some', Option.some.injEq]
    have hm : ((m' : ℚ) + 1) ≠ 0 := by positivity
    push_cast
    field_simp

/-- The last corrected offset when the stop list ends in an explicit stop
followed by `r ≥ 1` missing offsets: a lone trailing missing offset keeps
the anchor value `v`; a longer trailing run ends exactly at `1`.  The
starting state of the loop is irrelevant because the explicit stop resets
it. -/
theorem normalizeOffsets_getLast_anchor (p : List (Option ℚ)) :
    ∀ (v : ℚ) (r : ℕ), 1 ≤ r → ∀ (i : ℕ) (last : ℚ) (inc : Option ℚ),
      (normalizeOffsets (p ++ some v :: List.replicate r none) i last inc).getLast? =
        some (if r = 1 then some v else some 1) := by
  induction p with
  | nil =>
    intro v r hr i last inc
    obtain ⟨m, rfl⟩ : ∃ m, r = m + 1 := ⟨r - 1, by omega⟩
    have step : normalizeOffsets ([] ++ some v :: List.replicate (m + 1) none) i last inc =
        some v :: normalizeOffsets (List.replicate (m + 1) none) (i + 1) v none := by
      cases inc <;> rfl
    rw [step, getLast?_cons_ne _ (normalizeOffsets_ne_nil (by simp) _ _ _),
      normalizeOffsets_replicate_none_getLast m (i + 1) v (Or.inr (by omega))]
    congr 1
    rcases Nat.eq_zero_or_pos m with rfl | hm
    · rfl
    · rw [if_neg (by omega), if_neg (by omega)]
  | cons x p ih =>
    intro v r hr i last inc
    have hne : p ++ some v :: List.replicate r none ≠ [] := by simp
    rcases x with _ | s
    · rcases inc with _ | j
      · rw [List.cons_append]
        show (some _ :: normalizeOffsets (p ++ some v :: List.replicate r none) (i + 1)
          last _).getLast? = _
        rw [getLast?_cons_ne _ (normalizeOffsets_ne_nil hne _ _ _)]
        exact ih v r hr _ _ _
      · rw [List.cons_append]
        show (some (last + j) :: normalizeOffsets (p ++ some v :: List.replicate r none)
          (i + 1) (last + j) (some j)).getLast? = _
        rw [getLast?_cons_ne _ (normalizeOffsets_ne_nil hne _ _ _)]
        exact ih v r hr _ _ _
    · rw [List.cons_append]
      show (some s :: normalizeOffsets (p ++ some v :: List.replicate r none)
        (i + 1) s none).getLast? = _
      rw [getLast?_cons_ne _ (normalizeOffsets_ne_nil hne _ _ _)]
      exact ih v r hr _ _ _

/-- Every offset list ending in a missing offset is either all-missing or a
prefix, a last explicit offset, and a trailing all-missing run. -/
theorem option_list_decompose :
    ∀ l : List (Option ℚ), l.getLast? = some none →
      l = List.replicate l.length none ∨
        ∃ p v r, 1 ≤ r ∧ l = p ++ some v :: List.replicate r none := by
  intro l
  induction l with
  | nil => intro h; cases h
  | cons x xs ih =>
    intro hlast
    cases xs with
    | nil =>
      left
      have : x = none := by simpa [List.getLast?] using hlast
      simp [this]
    | cons y ys =>
      have h2 : (y :: ys).getLast? = some none := by
        rwa [List.getLast?_cons_cons] at hlast
      rcases ih h2 with hall | ⟨p, v, r, hr, hpe⟩
      · rcases x with _ | w
        · left
          rw [List.length_cons, List.replicate_succ]
          exact congrArg (List.cons none) hall
        · right
          exact ⟨[], w, (y :: ys).length, by simp, by
            rw [List.nil_append]
            exact congrArg (List.cons (some w)) hall⟩
      · right
        exact ⟨x :: p, v, r, hr, by rw [hpe, List.cons_append]⟩

/-! ## Claim C3: even spacing without explicit percentages -/

/-- Claim C3: when no stop carries an explicit percentage (all parsed
offsets are `none`), the correction loop spaces the `n ≥ 2` stops evenly
from `0` to `1` (stop `k` receives `k / (n - 1)`); in particular
`"linear-gradient(red, yellow)"` gets offsets `[0, 1]` and
`"linear-gradient(red, lime, blue, yellow)"` gets `[0, 1/3, 2/3, 1]`. -/
theorem c3_even_spacing :
    (∀ l : List (Option ℚ), (∀ x ∈ l, x = none) → 2 ≤ l.length →
      normalizeOffsets l 0 0 none =
        (List.range l.length).map
          (fun k : ℕ => some ((k : ℚ) / ((l.length : ℚ) - 1)))) ∧
    parse_css_background ("linear-gradient(red, yellow)".toList) =
      .ok (.LinearGradient ⟨.FromTo .Top .Bottom, .Clamp,
        [⟨some 0, ⟨1, 0, 0, 1⟩⟩, ⟨some 1, ⟨1, 1, 0, 1⟩⟩]⟩) ∧
    parse_css_background ("linear-gradient(red, lime, blue, yellow)".toList) =
      .ok (.LinearGradient ⟨.FromTo .Top .Bottom, .Clamp,
        [⟨some 0, ⟨1, 0, 0, 1⟩⟩, ⟨some (1 / 3), ⟨0, 1, 0, 1⟩⟩,
         ⟨some (2 / 3), ⟨0, 0, 1, 1⟩⟩, ⟨some 1, ⟨1, 1, 0, 1⟩⟩]⟩) := by
  refine ⟨?_, by with_unfolding_all rfl, by with_unfolding_all rfl⟩
  intro l hall hlen
  have hrep := List.eq_replicate_of_mem hall
  obtain ⟨m, hm⟩ : ∃ m, l.length = m + 2 := ⟨l.length - 2, by omega⟩
  rw [hrep]
  simp only [List.length_replicate]
  rw [hm, show m + 2 = (m + 1) + 1 from rfl,
    normalizeOffsets_replicate_none (m + 1) 0 0 (Or.inl rfl)]
  conv_rhs => rw [List.range_succ_eq_map, List.map_cons, List.map_map]
  refine congrArg₂ List.cons ?_ ?_
  · push_cast
    norm_num
  · refine List.map_congr_left fun k _ => ?_
    simp only [Function.comp_apply, Option.some.injEq]
    have hm1 : ((m : ℚ) + 1) ≠ 0 := by positivity
    push_cast
    field_simp

/-- Claim C3 (witness): the general part applied to three missing offsets. -/
theorem c3_even_spacing_witness :
    normalizeOffsets [none, none, none] 0 0 none =
      [some 0, some (1 / 2), some 1] := by
  have h := c3_even_spacing.1 [none, none, none] (by simp) (by simp)
  rw [h]
  norm_num [List.range_succ]

/-- Claim C4 (amended): for a stop list of length `n ≥ 2` whose final
offset is missing, the correction loop assigns the final stop `1` whenever
the second-to-last offset is also missing; but when the final stop is a
lone trailing missing offset directly after an explicit stop, it receives
that stop's explicit offset (the running anchor value), not `1`. -/
theorem c4_trailing_stop (l : List (Option ℚ)) (hlen : 2 ≤ l.length)
    (hlast : l.getLast? = some none) :
    (∀ v : ℚ, l[l.length - 2]? = some (some v) →
      (normalizeOffsets l 0 0 none).getLast? = some (some v)) ∧
    (l[l.length - 2]? = some none →
      (normalizeOffsets l 0 0 none).getLast? = some (some 1)) := by
  rcases option_list_decompose l hlast with hall | ⟨p, v, r, hr, rfl⟩
  · have hidx : l[l.length - 2]? = some none := by
      conv_lhs => rw [hall]
      simp only [List.length_replicate]
      exact List.getElem?_replicate_of_lt (by omega)
    obtain ⟨m, hm⟩ : ∃ m, l.length = m + 2 := ⟨l.length - 2, by omega⟩
    constructor
    · intro w hw
      rw [hidx] at hw
      simp at hw
    · intro _
      conv_lhs => rw [hall, hm]
      rw [show m + 2 = (m + 1) + 1 from rfl,
        normalizeOffsets_replicate_none_getLast (m + 1) 0 0 (Or.inl rfl),
        if_neg (Nat.succ_ne_zero m)]
  · have hlen' : (p ++ some v :: List.replicate r none).length = p.length + r + 1 := by
      simp [List.length_append]
      omega
    have hidx0 : (p ++ some v :: List.replicate r none).length - 2 = p.length + (r - 1) := by
      omega
    have hget : (p ++ some v :: List.replicate r none)[p.length + (r - 1)]? =
        (some v :: List.replicate r none)[r - 1]? := by
      rw [List.getElem?_append_right (by omega)]
      congr 1
      omega
    rcases Nat.lt_or_ge r 2 with h2 | h2
    · have hr1 : r = 1 := by omega
      subst hr1
      constructor
      · intro w hw
        rw [hidx0, hget, show (1 : ℕ) - 1 = 0 from rfl,
          List.getElem?_cons_zero] at hw
        simp only [Option.some.injEq] at hw
        rw [normalizeOffsets_getLast_anchor p v 1 le_rfl 0 0 none, if_pos rfl, hw]
      · intro hw
        rw [hidx0, hget, show (1 : ℕ) - 1 = 0 from rfl,
          List.getElem?_cons_zero] at hw
        exact absurd hw (by simp)
    · have hmid : (some v :: List.replicate r none)[r - 1]? = some none := by
        obtain ⟨r', rfl⟩ : ∃ r', r = r' + 2 := ⟨r - 2, by omega⟩
        rw [show r' + 2 - 1 = r' + 1 from rfl, List.getElem?_cons_succ]
        exact List.getElem?_replicate_of_lt (by omega)
      constructor
      · intro w hw
        rw [hidx0, hget, hmid] at hw
        simp at hw
      · intro _
        rw [normalizeOffsets_getLast_anchor p v r hr 0 0 none, if_neg (by omega)]

/-- Claim C4 (witness): a lone trailing missing offset after `50%` keeps
`50`, while a pair of missing offsets ends at `1`. -/
theorem c4_trailing_stop_witness :
    (normalizeOffsets [some 50, none] 0 0 none).getLast? = some (some 50) ∧
    (normalizeOffsets [none, none] 0 0 none).getLast? = some (some 1) :=
  ⟨(c4_trailing_stop [some 50, none] (by norm_num) (by rfl)).1 50 (by rfl),
   (c4_trailing_stop [none, none] (by norm_num) (by rfl)).2 (by rfl)⟩

/-! ## Claim C2 (amended): offsets are always filled in -/

theorem applyOffsets_offset_mem :
    ∀ (ss : List GradientStopPre) (os : List (Option ℚ)) (s : GradientStopPre),
      s ∈ applyOffsets ss os → s.offset ∈ os := by
  intro ss
  induction ss with
  | nil => intro os s hs; cases os <;> cases hs
  | cons x ss ih =>
    intro os s hs
    cases os with
    | nil => cases hs
    | cons o os =>
      simp only [applyOffsets, List.mem_cons] at hs
      rcases hs with rfl | hs
      · exact List.mem_cons_self _ _
      · exact List.mem_cons_of_mem _ (ih os s hs)

theorem gradientStops_normalizeAndBuild (gt : GradientType) (d : Direction)
    (sh : Shape) (cs : List GradientStopPre) :
    gradientStops (normalizeAndBuild gt d sh cs) =
      applyOffsets cs (normalizeOffsets (cs.map (·.offset)) 0 0 none) := by
  cases gt <;> rfl

/-- Every successful `parse_css_background` result is built by
`normalizeAndBuild`. -/
theorem parse_css_background_ok {input : Str} {g : ParsedGradient}
    (h : parse_css_background input = .ok g) :
    ∃ gt d sh cs, g = normalizeAndBuild gt d sh cs := by
  unfold parse_css_background at h
  dsimp only [] at h
  repeat' split at h
  all_goals
    first
      | (injection h with h2; exact ⟨_, _, _, _, h2.symm⟩)
      | injection h

/-- Claim C2 (amended): after a successful parse every stop has a defined
(non-`none`) offset.  (The other two claimed invariants — offsets within
`[0, 1]` and non-decreasing — do not hold; see the counterexample.) -/
theorem c2_offsets_defined (input : Str) (g : ParsedGradient)
    (h : parse_css_background input = .ok g) :
    ∀ s ∈ gradientStops g, s.offset.isSome = true := by
  obtain ⟨gt, d, sh, cs, rfl⟩ := parse_css_background_ok h
  intro s hs
  rw [gradientStops_normalizeAndBuild] at hs
  exact normalizeOffsets_isSome _ _ _ _ _ (applyOffsets_offset_mem _ _ s hs)

/-- Claim C2 (witness): the amended claim applied to
`"linear-gradient(red, yellow)"`. -/
theorem c2_offsets_defined_witness :
    (gradientStops (.LinearGradient ⟨.FromTo .Top .Bottom, .Clamp,
        [⟨some 0, ⟨1, 0, 0, 1⟩⟩, ⟨some 1, ⟨1, 1, 0, 1⟩⟩]⟩)).all
      (fun s => s.offset.isSome) = true := by
  have h := c2_offsets_defined ("linear-gradient(red, yellow)".toList)
    (.LinearGradient ⟨.FromTo .Top .Bottom, .Clamp,
      [⟨some 0, ⟨1, 0, 0, 1⟩⟩, ⟨some 1, ⟨1, 1, 0, 1⟩⟩]⟩)
    (by with_unfolding_all rfl)
  exact List.all_eq_true.mpr fun s hs => h s hs

/-! ## Claim C9: border-radius corner assignment -/

/-- Claim C9: the corner assignment of `parse_css_border_radius` follows
the CSS shorthand exactly: one token sets all four corners; two tokens set
(top-left, bottom-right) from the first and (top-right, bottom-left) from
the second; three tokens set top-left, then (top-right, bottom-left), then
bottom-right; four tokens set top-left, top-right, bottom-right,
bottom-left in order; and more than four tokens is a hard error carrying
the whole input. -/
theorem c9_border_radius_arity (input : Str) :
    (∀ t r, splitWhitespace input = [t] → parse_pixel_value t = .ok r →
      parse_css_border_radius input = .ok (BorderRadius.uniform r.to_pixels)) ∧
    (∀ t1 t2 r1 r2, splitWhitespace input = [t1, t2] →
      parse_pixel_value t1 = .ok r1 → parse_pixel_value t2 = .ok r2 →
      parse_css_border_radius input = .ok
        ⟨(r1.to_pixels, r1.to_pixels), (r2.to_pixels, r2.to_pixels),
         (r1.to_pixels, r1.to_pixels), (r2.to_pixels, r2.to_pixels)⟩) ∧
    (∀ t1 t2 t3 r1 r2 r3, splitWhitespace input = [t1, t2, t3] →
      parse_pixel_value t1 = .ok r1 → parse_pixel_value t2 = .ok r2 →
      parse_pixel_value t3 = .ok r3 →
      parse_css_border_radius input = .ok
        ⟨(r1.to_pixels, r1.to_pixels), (r2.to_pixels, r2.to_pixels),
         (r3.to_pixels, r3.to_pixels), (r2.to_pixels, r2.to_pixels)⟩) ∧
    (∀ t1 t2 t3 t4 r1 r2 r3 r4, splitWhitespace input = [t1, t2, t3, t4] →
      parse_pixel_value t1 = .ok r1 → parse_pixel_value t2 = .ok r2 →
      parse_pixel_value t3 = .ok r3 → parse_pixel_value t4 = .ok r4 →
      parse_css_border_radius input = .ok
        ⟨(r1.to_pixels, r1.to_pixels), (r2.to_pixels, r2.to_pixels),
         (r3.to_pixels, r3.to_pixels), (r4.to_pixels, r4.to_pixels)⟩) ∧
    (4 < (splitWhitespace input).length →
      parse_css_border_radius input = .error (.TooManyValues input)) := by
  refine ⟨?_, ?_, ?_, ?_, ?_⟩
  · intro t r hs hp
    unfold parse_css_border_radius
    rw [hs]
    simp only [hp]
  · intro t1 t2 r1 r2 hs h1 h2
    unfold parse_css_border_radius
    rw [hs]
    simp only [h1, h2]
  · intro t1 t2 t3 r1 r2 r3 hs h1 h2 h3
    unfold parse_css_border_radius
    rw [hs]
    simp only [h1, h2, h3]
  · intro t1 t2 t3 t4 r1 r2 r3 r4 hs h1 h2 h3 h4
    unfold parse_css_border_radius
    rw [hs]
    simp only [h1, h2, h3, h4]
  · intro hlen
    unfold parse_css_border_radius
    rcases hs : splitWhitespace input with _ | ⟨a, _ | ⟨b, _ | ⟨c, _ | ⟨d, _ | ⟨e, l⟩⟩⟩⟩⟩ <;>
      rw [hs] at hlen <;> simp at hlen ⊢

/-- Claim C9 (witness): the two-token case on `"15px 50px"`. -/
theorem c9_border_radius_arity_witness :
    parse_css_border_radius ("15px 50px".toList) =
      .ok ⟨(15, 15), (50, 50), (15, 15), (50, 50)⟩ := by
  have h := (c9_border_radius_arity ("15px 50px".toList)).2.1
    ("15px".toList) ("50px".toList) ⟨.Px, 15⟩ ⟨.Px, 50⟩
    (by with_unfolding_all rfl) (by with_unfolding_all rfl) (by with_unfolding_all rfl)
  rw [h]
  with_unfolding_all rfl

/-! ## Claim C5 (amended): four box-shadow tokens ending in a keyword -/

/-- Claim C5 (amended): for exactly four whitespace tokens whose last is
literally `inset` or `outset`, any successful parse reads the first two
tokens as the offsets and the THIRD token as the color; the blur radius is
left at its default `0` and the keyword only sets the clip mode (it is
never reparsed as a color or length). -/
theorem c5_four_token_keyword (input t0 t1 t2 k : Str)
    (hs : splitWhitespace input = [t0, t1, t2, k])
    (hk : k = insetTok ∨ k = outsetTok)
    (bs : BoxShadowPreDisplayItem)
    (h : parse_css_box_shadow input = .ok (some bs)) :
    ∃ ho vo c, parse_pixel_value t0 = .ok ho ∧ parse_pixel_value t1 = .ok vo ∧
      parse_css_color t2 = .ok c ∧
      bs = ⟨ho.to_pixels, vo.to_pixels, ColorF.from c, 0, 0,
        if k = insetTok then .Inset else .Outset⟩ := by
  unfold parse_css_box_shadow at h
  rw [hs] at h
  rcases hk with rfl | rfl <;>
    [(simp only [List.length_cons, List.length_nil, List.getLast?_cons_cons,
        List.getLast?_singleton] at h;
      norm_num [insetTok, outsetTok] at h);
     (simp only [List.length_cons, List.length_nil, List.getLast?_cons_cons,
        List.getLast?_singleton] at h;
      norm_num [insetTok, outsetTok] at h)] <;>
  · split at h <;> try exact Except.noConfusion h
    next ho hho =>
    split at h <;> try exact Except.noConfusion h
    next vo hvo =>
    split at h <;> try exact Except.noConfusion h
    next c hc =>
    injection h with h2
    injection h2 with h3
    subst h3
    exact ⟨ho, vo, c, hho, hvo, hc, by norm_num [insetTok, outsetTok]⟩

/-- Claim C5 (witness): the amended claim applied to
`"5px 10px #888888 inset"`. -/
theorem c5_four_token_keyword_witness :
    ∃ ho vo c, parse_pixel_value ("5px".toList) = .ok ho ∧
      parse_pixel_value ("10px".toList) = .ok vo ∧
      parse_css_color ("#888888".toList) = .ok c ∧
      (⟨5, 10, ⟨8 / 15, 8 / 15, 8 / 15, 1⟩, 0, 0, .Inset⟩ : BoxShadowPreDisplayItem) =
        ⟨ho.to_pixels, vo.to_pixels, ColorF.from c, 0, 0,
          if ("inset".toList : Str) = insetTok then .Inset else .Outset⟩ :=
  c5_four_token_keyword ("5px 10px #888888 inset".toList) ("5px".toList)
    ("10px".toList) ("#888888".toList) ("inset".toList)
    (by with_unfolding_all rfl) (Or.inl (by with_unfolding_all rfl))
    ⟨5, 10, ⟨8 / 15, 8 / 15, 8 / 15, 1⟩, 0, 0, .Inset⟩ (by with_unfolding_all rfl)

/-! ## Claim C10: six box-shadow tokens without a trailing keyword -/

/-- Claim C10: with exactly six whitespace tokens whose last is neither
`inset` nor `outset`, the parser accepts the input (no arity or syntax
error for the extra token), reads the first five tokens as h-offset,
v-offset, blur, spread and color, silently ignores the sixth token
entirely, and reports clip mode `Outset`. -/
theorem c10_six_token_extra_ignored (input t0 t1 t2 t3 t4 t5 : Str)
    (hs : splitWhitespace input = [t0, t1, t2, t3, t4, t5])
    (h5i : t5 ≠ insetTok) (h5o : t5 ≠ outsetTok)
    (ho vo bo so : PixelValue) (c : ColorU)
    (h0 : parse_pixel_value t0 = .ok ho) (h1 : parse_pixel_value t1 = .ok vo)
    (h2 : parse_pixel_value t2 = .ok bo) (h3 : parse_pixel_value t3 = .ok so)
    (h4 : parse_css_color t4 = .ok c) :
    parse_css_box_shadow input = .ok (some
      ⟨ho.to_pixels, vo.to_pixels, ColorF.from c, bo.to_pixels,
        so.to_pixels, .Outset⟩) := by
  unfold parse_css_box_shadow
  rw [hs]
  have hni : ¬ (some t5 = some insetTok ∨ some t5 = some outsetTok) := by
    simp [h5i, h5o]
  simp only [List.length_cons, List.length_nil, List.getLast?_cons_cons,
    List.getLast?_singleton, List.getD_cons_zero, List.getD_cons_succ,
    h0, h1, h2, h3, h4]
  norm_num [hni]
  exact fun _ _ hti => absurd hti h5i

/-- Claim C10 (witness): `"1px 2px 3px 4px red foo"` parses with the junk
token `foo` ignored. -/
theorem c10_six_token_extra_ignored_witness :
    parse_css_box_shadow ("1px 2px 3px 4px red foo".toList) =
      .ok (some ⟨1, 2, ⟨1, 0, 0, 1⟩, 3, 4, .Outset⟩) := by
  have h := c10_six_token_extra_ignored ("1px 2px 3px 4px red foo".toList)
    ("1px".toList) ("2px".toList) ("3px".toList) ("4px".toList)
    ("red".toList) ("foo".toList)
    (by with_unfolding_all rfl) (by simp [insetTok]) (by simp [outsetTok])
    ⟨.Px, 1⟩ ⟨.Px, 2⟩ ⟨.Px, 3⟩ ⟨.Px, 4⟩ ⟨255, 0, 0, 255⟩
    (by with_unfolding_all rfl) (by with_unfolding_all rfl) (by with_unfolding_all rfl)
    (by with_unfolding_all rfl) (by with_unfolding_all rfl)
  rw [h]
  with_unfolding_all rfl

/-! ## Claim C8: hex color parsing -/

theorem hexVal_lt (c : Char) : hexVal c < 16 := by
  rw [hexVal, hexDigitVal?]
  split_ifs <;> simp <;> omega

theorem from_hex_byteOf {c : Char} (h : isHexDigit c = true) :
    from_hex (byteOf c) = .ok (hexVal c) := by
  rw [isHexDigit, hexDigitVal?] at h
  have hb : byteOf c = c.toNat := by
    rw [byteOf]
    split_ifs at h <;> first | omega | simp at h
  rw [hb, from_hex, hexVal, hexDigitVal?]
  split_ifs at h ⊢ <;> simp_all

theorem isHexDigit_ne_plus {c : Char} (h : isHexDigit c = true) : ¬ c = '+' := by
  rintro rfl
  exact absurd h (by decide)

theorem land255_eq_mod (x : ℕ) : x &&& 255 = x % 256 := by
  have h := Nat.and_pow_two_sub_one_eq_mod x 8
  norm_num at h
  exact h

/-- Claim C8: hex color parsing (after stripping a leading `#`, which is
exactly what `parse_css_color` does) succeeds on hex-digit strings of
exactly the lengths 3, 4, 6 and 8, channel-for-channel: 3 digits duplicate
each digit per channel with alpha 255, 4 digits do the same with the last
digit pair as alpha, 6 digits are RRGGBB with alpha 255, 8 digits are
RRGGBBAA; any other length is an error. -/
theorem c8_hex_parsing (cs : Str) (hhex : ∀ c ∈ cs, isHexDigit c = true) :
    (∀ rest : Str, parse_css_color ('#' :: rest) = parse_color_no_hash rest) ∧
    (∀ a b c, cs = [a, b, c] →
      parse_color_no_hash cs = .ok ⟨17 * hexVal a, 17 * hexVal b, 17 * hexVal c, 255⟩) ∧
    (∀ a b c d, cs = [a, b, c, d] →
      parse_color_no_hash cs =
        .ok ⟨17 * hexVal a, 17 * hexVal b, 17 * hexVal c, 17 * hexVal d⟩) ∧
    (∀ a b c d e f, cs = [a, b, c, d, e, f] →
      parse_color_no_hash cs = .ok
        ⟨16 * hexVal a + hexVal b, 16 * hexVal c + hexVal d,
         16 * hexVal e + hexVal f, 255⟩) ∧
    (∀ a b c d e f g j, cs = [a, b, c, d, e, f, g, j] →
      parse_color_no_hash cs = .ok
        ⟨16 * hexVal a + hexVal b, 16 * hexVal c + hexVal d,
         16 * hexVal e + hexVal f, 16 * hexVal g + hexVal j⟩) ∧
    (cs.length ≠ 3 → cs.length ≠ 4 → cs.length ≠ 6 → cs.length ≠ 8 →
      parse_color_no_hash cs = .error (.InvalidColor cs)) := by
  refine ⟨fun rest => rfl, ?_, ?_, ?_, ?_, ?_⟩
  · intro a b c hceq
    subst hceq
    have ha := hhex a (by simp)
    have hb := hhex b (by simp)
    have hc := hhex c (by simp)
    simp only [parse_color_no_hash, from_hex_byteOf ha, from_hex_byteOf hb,
      from_hex_byteOf hc]
    simp [ColorU.mk.injEq]
    omega
  · intro a b c d hceq
    subst hceq
    have ha := hhex a (by simp)
    have hb := hhex b (by simp)
    have hc := hhex c (by simp)
    have hd := hhex d (by simp)
    simp only [parse_color_no_hash, from_hex_byteOf ha, from_hex_byteOf hb,
      from_hex_byteOf hc, from_hex_byteOf hd]
    simp [ColorU.mk.injEq]
    omega
  · intro a b c d e f hceq
    subst hceq
    have ha := hhex a (by simp)
    have hb := hhex b (by simp)
    have hc := hhex c (by simp)
    have hd := hhex d (by simp)
    have he := hhex e (by simp)
    have hf := hhex f (by simp)
    have hva := hexVal_lt a
    have hvb := hexVal_lt b
    have hvc := hexVal_lt c
    have hvd := hexVal_lt d
    have hve := hexVal_lt e
    have hvf := hexVal_lt f
    simp only [parse_color_no_hash, List.length_cons, List.length_nil]
    norm_num
    rw [from_str_radix16]
    simp only [List.head?_cons, List.tail_cons]
    rw [if_neg (by simp [isHexDigit_ne_plus ha])]
    simp only [List.all_cons, List.all_nil, ha, hb, hc, hd, he, hf,
      Bool.and_true, Bool.and_self]
    simp only [List.foldl_cons, List.foldl_nil]
    simp only [Nat.shiftRight_eq_div_pow, land255_eq_mod]
    have h32 : (((((0 * 16 + hexVal a) * 16 + hexVal b) * 16 + hexVal c) * 16
        + hexVal d) * 16 + hexVal e) * 16 + hexVal f < 2 ^ 32 := by
      have hp : (2 : ℕ) ^ 32 = 4294967296 := by norm_num
      omega
    rw [if_pos h32]
    exact congrArg Except.ok (by
      rw [show (2 : ℕ) ^ 16 = 65536 from by norm_num,
        show (2 : ℕ) ^ 8 = 256 from by norm_num]
      simp only [ColorU.mk.injEq]
      refine ⟨?_, ?_, ?_, trivial⟩ <;> omega)
  · intro a b c d e f g j hceq
    subst hceq
    have ha := hhex a (by simp)
    have hb := hhex b (by simp)
    have hc := hhex c (by simp)
    have hd := hhex d (by simp)
    have he := hhex e (by simp)
    have hf := hhex f (by simp)
    have hg := hhex g (by simp)
    have hj := hhex j (by simp)
    have hva := hexVal_lt a
    have hvb := hexVal_lt b
    have hvc := hexVal_lt c
    have hvd := hexVal_lt d
    have hve := hexVal_lt e
    have hvf := hexVal_lt f
    have hvg := hexVal_lt g
    have hvj := hexVal_lt j
    simp only [parse_color_no_hash, List.length_cons, List.length_nil]
    norm_num
    rw [from_str_radix16]
    simp only [List.head?_cons, List.tail_cons]
    rw [if_neg (by simp [isHexDigit_ne_plus ha])]
    simp only [List.all_cons, List.all_nil, ha, hb, hc, hd, he, hf, hg, hj,
      Bool.and_true, Bool.and_self]
    simp only [List.foldl_cons, List.foldl_nil]
    simp only [Nat.shiftRight_eq_div_pow, land255_eq_mod]
    have h32 : (((((((0 * 16 + hexVal a) * 16 + hexVal b) * 16 + hexVal c) * 16
        + hexVal d) * 16 + hexVal e) * 16 + hexVal f) * 16 + hexVal g) * 16
        + hexVal j < 2 ^ 32 := by
      have hp : (2 : ℕ) ^ 32 = 4294967296 := by norm_num
      omega
    rw [if_pos h32]
    exact congrArg Except.ok (by
      rw [show (2 : ℕ) ^ 24 = 16777216 from by norm_num,
        show (2 : ℕ) ^ 16 = 65536 from by norm_num,
        show (2 : ℕ) ^ 8 = 256 from by norm_num]
      simp only [ColorU.mk.injEq]
      refine ⟨?_, ?_, ?_, ?_⟩ <;> omega)
  · intro h3 h4 h6 h8
    rcases cs with _ | ⟨a, _ | ⟨b, _ | ⟨c, _ | ⟨d, _ | ⟨e, cs''⟩⟩⟩⟩⟩
    · simp [parse_color_no_hash]
    · simp [parse_color_no_hash]
    · simp [parse_color_no_hash]
    · exact absurd (by simp) h3
    · exact absurd (by simp) h4
    · simp only [parse_color_no_hash]
      rw [if_neg h6, if_neg h8]

/-- Claim C8 (witness): `"EEE"` and `"F0F8FF00"` channel-exactly. -/
theorem c8_hex_parsing_witness :
    parse_color_no_hash ("EEE".toList) = .ok ⟨238, 238, 238, 255⟩ ∧
    parse_color_no_hash ("F0F8FF00".toList) = .ok ⟨240, 248, 255, 0⟩ := by
  constructor
  · have h := (c8_hex_parsing ("EEE".toList) (by decide)).2.1 'E' 'E' 'E' (by decide)
    rw [h]
    with_unfolding_all rfl
  · have h := (c8_hex_parsing ("F0F8FF00".toList) (by decide)).2.2.2.2.1
      'F' '0' 'F' '8' 'F' 'F' '0' '0' (by decide)
    rw [h]
    with_unfolding_all rfl
